import Mathlib

/-!
Verification of the CPID (composite process identifier) derivation engine,
a shallow embedding of src/src/macos/cpid_macos.c.

Modelling conventions:
- Machine integers are Nat; a uint64 field is serialized as its 8
  little-endian bytes (the target platforms, x86-64 and arm64 macOS, are
  little-endian), which takes the value mod 2^64 implicitly.
- The packed struct digest_input_content_t is hashed by overlaying its
  memory; here it is embedded as a record together with the byte image
  that the overlay denotes (field by field, in declaration order, with
  no padding, exactly as #pragma pack(push, 1) guarantees).
- The OpenSSL EVP layer (EVP_DigestInit_ex2 / EVP_DigestUpdate /
  EVP_DigestFinal_ex) is third-party code, modelled as an oracle: three
  success flags for the three calls and a digest function from message
  bytes to output bytes; the length EVP_DigestFinal_ex reports is the
  length of that output.
- The C functions all collapse failures to RETURN_ERROR; the embedding
  returns an error constructor naming the return site, following the
  error taxonomy of the specification.
- Output parameters written only on success are modelled by the
  Except result; a NULL output-pointer argument is not modelled (the
  claims quantify over calls with a valid output buffer).
-/

def KERNEL_TASK_PID : Nat := 0

def LAUNCHD_PID : Nat := 1

def MACOS_SERIAL_NUMBER_BUFFER_SIZE : Nat := 16

def MACOS_EXPECTED_DIGEST_INPUT_CONTENT_SIZE : Nat := 88

def MAX_MICROS_OFFSET : Nat := 999999

/-- Modelled from the spec: MAX_PID is defined in constants.h, which is not
under src/. The spec only requires a maximum valid PID bound for the
platform process-identifier range; the macOS kernel bound is 99999.
No claim depends on the particular value. -/
def MAX_PID : Nat := 99999

/-- Modelled from the spec: SHA256_BUFFER_SIZE is defined in constants.h,
which is not under src/. The spec fixes it: "the reported output length
equals exactly 32 bytes (SHA-256 width)". -/
def SHA256_BUFFER_SIZE : Nat := 32

/-- The OpenSSL bound on a digest output; the size of the scratch buffer. -/
def EVP_MAX_MD_SIZE : Nat := 64

/-- The 8 little-endian bytes of a uint64_t value. -/
def u64le (n : Nat) : List Nat :=
  [n % 256, n / 2 ^ 8 % 256, n / 2 ^ 16 % 256, n / 2 ^ 24 % 256,
   n / 2 ^ 32 % 256, n / 2 ^ 40 % 256, n / 2 ^ 48 % 256, n / 2 ^ 56 % 256]

/-- process_creation_time_t: two uint64_t fields (packed). -/
structure process_creation_time_t where
  unix_epoch_seconds : Nat
  micros_offset : Nat
  deriving DecidableEq

/-- digest_input_content_t: the packed 88-byte digest input record.
The two 16-byte arrays (char serial_number[16], uuid_t hardware_uuid)
are embedded as functions from Fin 16 to byte values. -/
structure digest_input_content_t where
  serial_number : Fin 16 → Nat
  hardware_uuid : Fin 16 → Nat
  kernel_task_creation_time : process_creation_time_t
  launchd_creation_time : process_creation_time_t
  process_creation_time : process_creation_time_t
  pid : Nat

/-- Byte image of a process_creation_time_t (packed: seconds then micros). -/
def process_creation_time_bytes (t : process_creation_time_t) : List Nat :=
  u64le t.unix_epoch_seconds ++ u64le t.micros_offset

/-- Byte image of the packed digest_input_content_t, field by field in
declaration order with no padding: this is the memory EVP_DigestUpdate
reads when the struct is overlaid. -/
def digest_input_bytes (c : digest_input_content_t) : List Nat :=
  List.ofFn c.serial_number ++
  List.ofFn c.hardware_uuid ++
  process_creation_time_bytes c.kernel_task_creation_time ++
  process_creation_time_bytes c.launchd_creation_time ++
  process_creation_time_bytes c.process_creation_time ++
  u64le c.pid

/-- struct cpid_struct: the library handle. The two OpenSSL pointers are
modelled by presence flags (NULL = false); the scratch buffer and the
input record are embedded directly. -/
structure cpid_struct where
  digest_context : Bool
  sha256 : Bool
  digest_destination_buffer : List Nat
  digest_input_content : digest_input_content_t

/-- Oracle for the OpenSSL EVP digest layer (external to this repository):
success of the three EVP calls made by cpid_make_uuid, and the digest
bytes EVP_DigestFinal_ex writes for a given message. The digest length it
reports is (digest msg).length. -/
structure evp_oracle where
  initOk : Bool
  updateOk : Bool
  finalOk : Bool
  digest : List Nat → List Nat

/-- Error taxonomy. The C code collapses every failure to RETURN_ERROR;
each constructor names one return site, following the specification
taxonomy (InvalidArgument, DigestFailure, NotFound). -/
inductive cpid_error where
  | invalidArgument : cpid_error
  | digestInitFailure : cpid_error
  | digestUpdateFailure : cpid_error
  | digestFailure : cpid_error
  | notFound : cpid_error
  deriving DecidableEq

/-- cpid_make_uuid (lines 207-247): validates arguments, writes the
per-call fields, runs init/update/final on the digest context, checks the
reported digest length, imprints the UUID version and variant bits in the
scratch buffer, and copies its first 16 bytes out. Returns the post-call
handle state together with the result. -/
def cpid_make_uuid (H : evp_oracle) (library_handle : Option cpid_struct)
    (pid : Nat) (creation_time_unix_epoch_seconds : Nat)
    (creation_time_micros_offset : Nat) :
    Option cpid_struct × Except cpid_error (List Nat) :=
  match library_handle with
  | none => (none, Except.error cpid_error.invalidArgument)
  | some h =>
    if pid > MAX_PID ∨ creation_time_micros_offset > MAX_MICROS_OFFSET then
      (some h, Except.error cpid_error.invalidArgument)
    else
      -- set the process-specific information
      let content := { h.digest_input_content with
        pid := pid
        process_creation_time :=
          { unix_epoch_seconds := creation_time_unix_epoch_seconds
            micros_offset := creation_time_micros_offset } }
      let h1 := { h with digest_input_content := content }
      if H.initOk = false then
        (some h1, Except.error cpid_error.digestInitFailure)
      else if H.updateOk = false then
        (some h1, Except.error cpid_error.digestUpdateFailure)
      else if H.finalOk = false then
        (some h1, Except.error cpid_error.digestFailure)
      else
        -- EVP_DigestFinal_ex writes the digest into the scratch buffer
        let d := H.digest (digest_input_bytes content)
        let buf := d ++ h1.digest_destination_buffer.drop d.length
        let h2 := { h1 with digest_destination_buffer := buf }
        if d.length ≠ SHA256_BUFFER_SIZE then
          (some h2, Except.error cpid_error.digestFailure)
        else
          -- set the uuid version, then the uuid variant, in the buffer
          let b6 := (buf.getD 6 0 &&& 0x0F) ||| 0x80
          let bufA := buf.set 6 b6
          let b8 := (bufA.getD 8 0 &&& 0x3F) ||| 0x80
          let bufB := bufA.set 8 b8
          let h3 := { h1 with digest_destination_buffer := bufB }
          (some h3, Except.ok (bufB.take 16))

/-- The serialized record cpid_make_uuid feeds to the hash for a given
handle and argument triple: the constant fields of the handle, with the
per-call fields overwritten by the arguments. -/
def digest_message (h : cpid_struct) (pid secs micros : Nat) : List Nat :=
  digest_input_bytes { h.digest_input_content with
    pid := pid
    process_creation_time :=
      { unix_epoch_seconds := secs, micros_offset := micros } }

/-- The part of struct kinfo_proc that cpid_get_process_creation_time
reads: kp_proc.p_pid (pid_t, signed) and kp_proc.p_starttime (struct
timeval with signed tv_sec / tv_usec). -/
structure kinfo_proc where
  p_pid : Int
  p_starttime_tv_sec : Int
  p_starttime_tv_usec : Int

/-- Environment of platform collaborators (IOKit, sysctl, malloc and the
OpenSSL allocation calls), external to this repository:
- calloc_ok, md_fetch_ok, ctx_new_ok: success of calloc, EVP_MD_fetch,
  EVP_MD_CTX_new in cpid_initialize;
- serial_number / hardware_uuid: outcome of cpid_get_serial_number and
  cpid_get_hardware_uuid (their bodies are pure IOKit plumbing, so they
  are modelled by their outcome: the 16 bytes the queries write, or a
  failure);
- sysctl: the kinfo_proc record the kernel returns for a pid, if any. -/
structure cpid_env where
  calloc_ok : Bool
  md_fetch_ok : Bool
  ctx_new_ok : Bool
  serial_number : Option (Fin 16 → Nat)
  hardware_uuid : Option (Fin 16 → Nat)
  sysctl : Nat → Option kinfo_proc

/-- cpid_get_process_creation_time (lines 105-140): range-checks the pid
before the sysctl query, then validates the returned record (signedness
guard, pid echo, non-zero start second, non-negative components). -/
def cpid_get_process_creation_time (env : cpid_env) (pid : Nat) :
    Except Unit process_creation_time_t :=
  if pid > MAX_PID then Except.error ()
  else
    match env.sysctl pid with
    | none => Except.error ()
    | some info =>
      if info.p_pid < 0 then Except.error ()
      else if info.p_pid.toNat ≠ pid ∨ info.p_starttime_tv_sec = 0 then
        Except.error ()
      else if info.p_starttime_tv_sec < 0 ∨ info.p_starttime_tv_usec < 0 then
        Except.error ()
      else
        Except.ok { unix_epoch_seconds := info.p_starttime_tv_sec.toNat
                    micros_offset := info.p_starttime_tv_usec.toNat }

/-- cpid_get_uuid (lines 249-265): null check, query the process creation
time, delegate to cpid_make_uuid. -/
def cpid_get_uuid (env : cpid_env) (H : evp_oracle)
    (library_handle : Option cpid_struct) (pid : Nat) :
    Option cpid_struct × Except cpid_error (List Nat) :=
  match library_handle with
  | none => (none, Except.error cpid_error.invalidArgument)
  | some h =>
    match cpid_get_process_creation_time env pid with
    | Except.error _ => (some h, Except.error cpid_error.notFound)
    | Except.ok t =>
      cpid_make_uuid H (some h) pid t.unix_epoch_seconds t.micros_offset

/-- One hexadecimal digit as macOS uuid_unparse renders it (uppercase). -/
def hex_digit_upper (n : Nat) : Char :=
  if n < 10 then Char.ofNat (Char.toNat '0' + n)
  else if n < 16 then Char.ofNat (Char.toNat 'A' + (n - 10))
  else '?'

/-- The two hexadecimal digits of one byte. -/
def byte_hex_upper (b : Nat) : List Char :=
  [hex_digit_upper (b / 16), hex_digit_upper (b % 16)]

/-- The libuuid uuid_unparse routine on macOS: the 16 bytes rendered in the
hyphenated 8-4-4-4-12 form, uppercase (the terminating NUL of the C
string is not modelled). -/
def uuid_unparse (u : List Nat) : List Char :=
  byte_hex_upper (u.getD 0 0) ++ byte_hex_upper (u.getD 1 0) ++
  byte_hex_upper (u.getD 2 0) ++ byte_hex_upper (u.getD 3 0) ++
  '-' ::
  (byte_hex_upper (u.getD 4 0) ++ byte_hex_upper (u.getD 5 0) ++
  '-' ::
  (byte_hex_upper (u.getD 6 0) ++ byte_hex_upper (u.getD 7 0) ++
  '-' ::
  (byte_hex_upper (u.getD 8 0) ++ byte_hex_upper (u.getD 9 0) ++
  '-' ::
  (byte_hex_upper (u.getD 10 0) ++ byte_hex_upper (u.getD 11 0) ++
   byte_hex_upper (u.getD 12 0) ++ byte_hex_upper (u.getD 13 0) ++
   byte_hex_upper (u.getD 14 0) ++ byte_hex_upper (u.getD 15 0)))))

/-- C tolower on the ASCII range, as applied character-wise at lines
283-285. -/
def c_tolower (c : Char) : Char :=
  if 'A' ≤ c ∧ c ≤ 'Z' then Char.ofNat (c.toNat + 32) else c

/-- cpid_get_uuid_string (lines 267-288): null check, cpid_get_uuid,
uuid_unparse, then normalize every character to lowercase. -/
def cpid_get_uuid_string (env : cpid_env) (H : evp_oracle)
    (library_handle : Option cpid_struct) (pid : Nat) :
    Option cpid_struct × Except cpid_error (List Char) :=
  match library_handle with
  | none => (none, Except.error cpid_error.invalidArgument)
  | some h =>
    match cpid_get_uuid env H (some h) pid with
    | (hs, Except.error e) => (hs, Except.error e)
    | (hs, Except.ok uuid) => (hs, Except.ok ((uuid_unparse uuid).map c_tolower))

/-- Heap model for the handle lifecycle: live handle allocations (address
and contents), and counts of live OpenSSL EVP_MD and EVP_MD_CTX
allocations. Fresh addresses come from nextAddr. -/
structure cpid_heap where
  nextAddr : Nat
  live : List (Nat × cpid_struct)
  md_count : Nat
  ctx_count : Nat

/-- Contents of a live handle, if the address is live. -/
def cpid_heap.lookup (heap : cpid_heap) (a : Nat) : Option cpid_struct :=
  (heap.live.find? (fun p => p.1 == a)).map Prod.snd

/-- Remove a handle allocation from the heap. -/
def cpid_heap.remove (heap : cpid_heap) (a : Nat) : cpid_heap :=
  { heap with live := heap.live.filter (fun p => p.1 != a) }

/-- Heap well-formedness: every live address was allocated before
nextAddr. -/
def cpid_heap.wf (heap : cpid_heap) : Prop :=
  ∀ p ∈ heap.live, p.1 < heap.nextAddr

/-- cpid_finalize (lines 193-205): on a null handle, do nothing; on a
live handle, free the digest context and the algorithm handle if
present, then free the handle. Passing an address that is not live
(already freed) dereferences and frees dead memory: the Bool result is
false exactly on that fault. -/
def cpid_finalize (library_handle : Option Nat) (heap : cpid_heap) :
    cpid_heap × Bool :=
  match library_handle with
  | none => (heap, true)
  | some a =>
    match heap.lookup a with
    | none => (heap, false)
    | some s =>
      let heap1 := if s.digest_context then
        { heap with ctx_count := heap.ctx_count - 1 } else heap
      let heap2 := if s.sha256 then
        { heap1 with md_count := heap1.md_count - 1 } else heap1
      (heap2.remove a, true)

/-- The zero-filled handle calloc returns in cpid_initialize. -/
def zeroed_cpid_struct : cpid_struct :=
  { digest_context := false
    sha256 := false
    digest_destination_buffer := List.replicate EVP_MAX_MD_SIZE 0
    digest_input_content :=
      { serial_number := fun _ => 0
        hardware_uuid := fun _ => 0
        kernel_task_creation_time := { unix_epoch_seconds := 0, micros_offset := 0 }
        launchd_creation_time := { unix_epoch_seconds := 0, micros_offset := 0 }
        process_creation_time := { unix_epoch_seconds := 0, micros_offset := 0 }
        pid := 0 } }

/-- The staged do-while body of cpid_initialize (lines 150-183): each
step either fails (returning the handle contents written so far) or
writes its field. Returns the final handle contents and whether all
steps succeeded. -/
def cpid_init_steps (env : cpid_env) (s0 : cpid_struct) : cpid_struct × Bool :=
  if env.md_fetch_ok = false then (s0, false)
  else
    let s1 := { s0 with sha256 := true }
    if env.ctx_new_ok = false then (s1, false)
    else
      let s2 := { s1 with digest_context := true }
      match env.serial_number with
      | none => (s2, false)
      | some sn =>
        let s3 := { s2 with digest_input_content :=
          { s2.digest_input_content with serial_number := sn } }
        match env.hardware_uuid with
        | none => (s3, false)
        | some hu =>
          let s4 := { s3 with digest_input_content :=
            { s3.digest_input_content with hardware_uuid := hu } }
          match cpid_get_process_creation_time env KERNEL_TASK_PID with
          | Except.error _ => (s4, false)
          | Except.ok t0 =>
            let s5 := { s4 with digest_input_content :=
              { s4.digest_input_content with kernel_task_creation_time := t0 } }
            match cpid_get_process_creation_time env LAUNCHD_PID with
            | Except.error _ => (s5, false)
            | Except.ok t1 =>
              ({ s5 with digest_input_content :=
                { s5.digest_input_content with launchd_creation_time := t1 } },
               true)

/-- cpid_initialize (lines 142-191): calloc a zeroed handle, run the
staged acquisition steps, and on any failure call cpid_finalize on the
partial handle and return null. The md and ctx counts record the live
OpenSSL allocations, which are exactly the ones whose handle flags were
set by the steps. -/
def cpid_init (env : cpid_env) (heap : cpid_heap) :
    cpid_heap × Option Nat :=
  if env.calloc_ok = false then (heap, none)
  else
    let a := heap.nextAddr
    let r := cpid_init_steps env zeroed_cpid_struct
    let heap1 : cpid_heap :=
      { nextAddr := a + 1
        live := (a, r.1) :: heap.live
        md_count := heap.md_count + (if r.1.sha256 then 1 else 0)
        ctx_count := heap.ctx_count + (if r.1.digest_context then 1 else 0) }
    if r.2 then (heap1, some a)
    else ((cpid_finalize (some a) heap1).1, none)

/-! ### Helper lemmas -/

theorem take_set_comm {α : Type} (l : List α) (i n : Nat) (a : α) :
    (l.set i a).take n = (l.take n).set i a := by
  induction l generalizing i n with
  | nil => simp
  | cons x xs ih =>
    cases n with
    | zero => simp
    | succ n =>
      cases i with
      | zero => simp
      | succ i => simp [ih]

theorem getD_append_left_cpid {α : Type} (l r : List α) (n : Nat) (d : α)
    (h : n < l.length) : (l ++ r).getD n d = l.getD n d := by
  simp only [List.getD_eq_getElem?_getD]
  rw [List.getElem?_append_left h]

theorem getD_set_self_cpid {α : Type} (l : List α) (i : Nat) (a d : α)
    (h : i < l.length) : (l.set i a).getD i d = a := by
  simp only [List.getD_eq_getElem?_getD]
  rw [List.getElem?_set_self h]
  rfl

theorem getD_set_ne_cpid {α : Type} (l : List α) (i j : Nat) (a d : α)
    (h : i ≠ j) : (l.set i a).getD j d = l.getD j d := by
  simp only [List.getD_eq_getElem?_getD]
  rw [List.getElem?_set_ne h]

theorem and_mask_15 (x : Nat) : x &&& 15 = x % 16 := by
  have h := Nat.and_pow_two_sub_one_eq_mod x 4
  norm_num at h
  exact h

theorem and_mask_63 (x : Nat) : x &&& 63 = x % 64 := by
  have h := Nat.and_pow_two_sub_one_eq_mod x 6
  norm_num at h
  exact h

theorem lor_128_of_lt : ∀ y < 128, y ||| 128 = 128 + y := by decide

/-- The imprinted version byte: the low nibble survives, the high nibble
becomes 8. -/
theorem version_byte_eq (x : Nat) : (x &&& 15) ||| 128 = 128 + x % 16 := by
  rw [and_mask_15]
  exact lor_128_of_lt (x % 16) (by omega)

/-- The imprinted variant byte: the low 6 bits survive, the top two bits
become 10. -/
theorem variant_byte_eq (x : Nat) : (x &&& 63) ||| 128 = 128 + x % 64 := by
  rw [and_mask_63]
  exact lor_128_of_lt (x % 64) (by omega)

/-- Imprinting inside the 64-byte scratch buffer and then taking the
first 16 bytes is the same as taking the first 16 digest bytes and
imprinting there: the stale tail of the scratch buffer never reaches the
output. -/
theorem imprint_output_eq (d r : List Nat) (hd : d.length = 32) :
    ((((d ++ r).set 6 (((d ++ r).getD 6 0 &&& 15) ||| 128)).set 8
        ((((d ++ r).set 6 (((d ++ r).getD 6 0 &&& 15) ||| 128)).getD 8 0 &&& 63) |||
          128)).take 16) =
      ((d.take 16).set 6 ((d.getD 6 0 &&& 15) ||| 128)).set 8
        ((d.getD 8 0 &&& 63) ||| 128) := by
  have h6 : (d ++ r).getD 6 0 = d.getD 6 0 :=
    getD_append_left_cpid d r 6 0 (by omega)
  have h8 : ((d ++ r).set 6 ((d.getD 6 0 &&& 15) ||| 128)).getD 8 0 =
      d.getD 8 0 := by
    rw [getD_set_ne_cpid _ 6 8 _ _ (by omega)]
    exact getD_append_left_cpid d r 8 0 (by omega)
  rw [h6, h8, take_set_comm, take_set_comm,
      List.take_append_of_le_length (by omega)]

/-- Core run lemma: with valid arguments and a healthy EVP context,
cpid_make_uuid reaches the digest-length check; when the reported length
is 32 it returns the imprinted 16-byte digest prefix, otherwise the
digest failure. -/
theorem cpid_make_uuid_valid_run (H : evp_oracle) (h : cpid_struct)
    (pid secs micros : Nat)
    (hargs : ¬(pid > MAX_PID ∨ micros > MAX_MICROS_OFFSET))
    (hi : H.initOk = true) (hu : H.updateOk = true) (hf : H.finalOk = true) :
    (cpid_make_uuid H (some h) pid secs micros).2 =
      if (H.digest (digest_message h pid secs micros)).length = 32 then
        Except.ok
          ((((H.digest (digest_message h pid secs micros)).take 16).set 6
              (((H.digest (digest_message h pid secs micros)).getD 6 0 &&& 15) ||| 128)).set 8
            (((H.digest (digest_message h pid secs micros)).getD 8 0 &&& 63) ||| 128))
      else Except.error cpid_error.digestFailure := by
  by_cases hlen : (H.digest (digest_message h pid secs micros)).length = 32
  · rw [if_pos hlen]
    simp only [cpid_make_uuid, digest_message] at hlen ⊢
    rw [if_neg hargs]
    simp only [hi, hu, hf, Bool.true_eq_false, if_false]
    rw [if_neg (by simpa [SHA256_BUFFER_SIZE] using hlen)]
    simp only []
    rw [imprint_output_eq _ _ hlen]
  · rw [if_neg hlen]
    simp only [cpid_make_uuid, digest_message] at hlen ⊢
    rw [if_neg hargs]
    simp only [hi, hu, hf, Bool.true_eq_false, if_false]
    rw [if_pos (by simpa [SHA256_BUFFER_SIZE] using hlen)]

/-! ### Concrete fixtures used by witness theorems -/

/-- An EVP oracle whose calls all succeed and whose digest is 32 bytes
of value 7. -/
def oracleA : evp_oracle :=
  { initOk := true
    updateOk := true
    finalOk := true
    digest := fun _ => List.replicate 32 7 }

/-- An EVP oracle that reports a 20-byte digest. -/
def oracleShort : evp_oracle :=
  { initOk := true
    updateOk := true
    finalOk := true
    digest := fun _ => List.replicate 20 7 }

/-- A concrete fully initialized handle. -/
def handleA : cpid_struct :=
  { digest_context := true
    sha256 := true
    digest_destination_buffer := List.replicate EVP_MAX_MD_SIZE 0
    digest_input_content :=
      { serial_number := fun _ => 65
        hardware_uuid := fun _ => 1
        kernel_task_creation_time := { unix_epoch_seconds := 1, micros_offset := 0 }
        launchd_creation_time := { unix_epoch_seconds := 2, micros_offset := 0 }
        process_creation_time := { unix_epoch_seconds := 0, micros_offset := 0 }
        pid := 0 } }

/-- An empty heap. -/
def heapEmpty : cpid_heap :=
  { nextAddr := 0, live := [], md_count := 0, ctx_count := 0 }

/-- An environment whose serial-number query fails after both hash
allocations succeed. -/
def envFailSerial : cpid_env :=
  { calloc_ok := true
    md_fetch_ok := true
    ctx_new_ok := true
    serial_number := none
    hardware_uuid := some (fun _ => 1)
    sysctl := fun p =>
      some { p_pid := (p : Int), p_starttime_tv_sec := 5, p_starttime_tv_usec := 6 } }

/-- An environment where every query succeeds: the kernel reports, for
every pid in range, that pid itself with creation time (5, 6). -/
def envA : cpid_env :=
  { calloc_ok := true
    md_fetch_ok := true
    ctx_new_ok := true
    serial_number := some (fun _ => 65)
    hardware_uuid := some (fun _ => 1)
    sysctl := fun p =>
      some { p_pid := (p : Int), p_starttime_tv_sec := 5, p_starttime_tv_usec := 6 } }

/-- The string cpid_get_uuid_string produces for oracleA: the lowercase
hyphenated rendering of uuidA. -/
def sA : List Char :=
  ['0', '7', '0', '7', '0', '7', '0', '7', '-',
   '0', '7', '0', '7', '-',
   '8', '7', '0', '7', '-',
   '8', '7', '0', '7', '-',
   '0', '7', '0', '7', '0', '7', '0', '7', '0', '7', '0', '7']

/-- The identifier cpid_make_uuid returns for oracleA on any handle:
sixteen bytes of 7 with the version imprint at index 6 and the variant
imprint at index 8 (7 masked then merged with 0x80 gives 135). -/
def uuidA : List Nat := [7, 7, 7, 7, 7, 7, 135, 7, 135, 7, 7, 7, 7, 7, 7, 7]

/-- A heap with one live, fully initialized handle at address 0. -/
def heapCex : cpid_heap :=
  { nextAddr := 1
    live := [(0, handleA)]
    md_count := 1
    ctx_count := 1 }

/-- The lowercase hexadecimal alphabet of the output grammar. -/
def isLowerHexChar (c : Char) : Bool :=
  ('0' ≤ c && c ≤ '9') || ('a' ≤ c && c ≤ 'f')

/-! ### Claim theorems -/

/-- C1: for every fully initialized handle and valid argument triple
(pid at most MAX_PID, micros at most 999999), a successful
cpid_make_uuid returns exactly the first 16 bytes of the digest of the
88-byte serialized record, with the version imprint on byte 6 and the
variant imprint on byte 8, and it fails with the digest failure whenever
the reported digest length is not exactly 32 bytes. -/
theorem makeIdentifier_returns_truncated_digest (H : evp_oracle)
    (h : cpid_struct) (pid secs micros : Nat)
    (hpid : pid ≤ MAX_PID) (hm : micros ≤ MAX_MICROS_OFFSET)
    (hi : H.initOk = true) (hu : H.updateOk = true) (hf : H.finalOk = true) :
    ((H.digest (digest_message h pid secs micros)).length = 32 →
      (cpid_make_uuid H (some h) pid secs micros).2 =
        Except.ok
          ((((H.digest (digest_message h pid secs micros)).take 16).set 6
              (((H.digest (digest_message h pid secs micros)).getD 6 0 &&& 15) ||| 128)).set 8
            (((H.digest (digest_message h pid secs micros)).getD 8 0 &&& 63) ||| 128))) ∧
    ((H.digest (digest_message h pid secs micros)).length ≠ 32 →
      (cpid_make_uuid H (some h) pid secs micros).2 =
        Except.error cpid_error.digestFailure) := by
  have hrun := cpid_make_uuid_valid_run H h pid secs micros (by omega) hi hu hf
  constructor
  · intro hlen
    rw [hrun, if_pos hlen]
  · intro hlen
    rw [hrun, if_neg hlen]

theorem makeIdentifier_returns_truncated_digest_witness :
    ((oracleA.digest (digest_message handleA 4321 1700000000 500000)).length = 32 →
      (cpid_make_uuid oracleA (some handleA) 4321 1700000000 500000).2 =
        Except.ok
          ((((oracleA.digest (digest_message handleA 4321 1700000000 500000)).take 16).set 6
              (((oracleA.digest (digest_message handleA 4321 1700000000 500000)).getD 6 0 &&& 15) ||| 128)).set 8
            (((oracleA.digest (digest_message handleA 4321 1700000000 500000)).getD 8 0 &&& 63) ||| 128))) ∧
    ((oracleA.digest (digest_message handleA 4321 1700000000 500000)).length ≠ 32 →
      (cpid_make_uuid oracleA (some handleA) 4321 1700000000 500000).2 =
        Except.error cpid_error.digestFailure) :=
  makeIdentifier_returns_truncated_digest oracleA handleA 4321 1700000000 500000
    (by decide) (by decide) rfl rfl rfl

/-- C2: for every successful cpid_make_uuid call, byte 6 of the returned
16-byte value has high nibble 1000 (that is, value 8) and low nibble
equal to the low nibble of digest byte 6, and byte 8 has top two bits 10
(that is, value 2) and low 6 bits equal to the low 6 bits of digest
byte 8. -/
theorem makeIdentifier_version_variant_bits (H : evp_oracle)
    (h : cpid_struct) (pid secs micros : Nat) (u : List Nat)
    (hok : (cpid_make_uuid H (some h) pid secs micros).2 = Except.ok u) :
    u.getD 6 0 / 16 = 8 ∧
    u.getD 6 0 % 16 = (H.digest (digest_message h pid secs micros)).getD 6 0 % 16 ∧
    u.getD 8 0 / 64 = 2 ∧
    u.getD 8 0 % 64 = (H.digest (digest_message h pid secs micros)).getD 8 0 % 64 := by
  simp only [digest_message]
  simp only [cpid_make_uuid, digest_message] at hok
  by_cases hargs : pid > MAX_PID ∨ micros > MAX_MICROS_OFFSET
  · rw [if_pos hargs] at hok
    exact absurd hok (by simp)
  rw [if_neg hargs] at hok
  cases hI : H.initOk
  · simp [hI] at hok
  cases hU : H.updateOk
  · simp [hI, hU] at hok
  cases hF : H.finalOk
  · simp [hI, hU, hF] at hok
  simp only [hI, hU, hF, Bool.true_eq_false, if_false] at hok
  by_cases hlen :
      (H.digest (digest_input_bytes { h.digest_input_content with
        pid := pid
        process_creation_time :=
          { unix_epoch_seconds := secs, micros_offset := micros } })).length = 32
  · rw [if_neg (by simpa [SHA256_BUFFER_SIZE] using hlen)] at hok
    simp only [Except.ok.injEq] at hok
    subst hok
    rw [imprint_output_eq _ _ hlen]
    set d := H.digest (digest_input_bytes { h.digest_input_content with
        pid := pid
        process_creation_time :=
          { unix_epoch_seconds := secs, micros_offset := micros } }) with hd
    have hlen16 : (d.take 16).length = 16 := by
      simp [hlen]
    have g6 : (((d.take 16).set 6 ((d.getD 6 0 &&& 15) ||| 128)).set 8
        ((d.getD 8 0 &&& 63) ||| 128)).getD 6 0 = (d.getD 6 0 &&& 15) ||| 128 := by
      rw [getD_set_ne_cpid _ 8 6 _ _ (by omega)]
      exact getD_set_self_cpid _ 6 _ _ (by omega)
    have g8 : (((d.take 16).set 6 ((d.getD 6 0 &&& 15) ||| 128)).set 8
        ((d.getD 8 0 &&& 63) ||| 128)).getD 8 0 = (d.getD 8 0 &&& 63) ||| 128 := by
      exact getD_set_self_cpid _ 8 _ _ (by simp [hlen])
    rw [g6, g8, version_byte_eq, variant_byte_eq]
    have m6 : d.getD 6 0 % 16 < 16 := Nat.mod_lt _ (by omega)
    have m8 : d.getD 8 0 % 64 < 64 := Nat.mod_lt _ (by omega)
    refine ⟨by omega, by omega, by omega, by omega⟩
  · rw [if_pos (by simpa [SHA256_BUFFER_SIZE] using hlen)] at hok
    exact absurd hok (by simp)

theorem makeIdentifier_version_variant_bits_witness :
    uuidA.getD 6 0 / 16 = 8 ∧
    uuidA.getD 6 0 % 16 = (oracleA.digest (digest_message handleA 1 2 3)).getD 6 0 % 16 ∧
    uuidA.getD 8 0 / 64 = 2 ∧
    uuidA.getD 8 0 % 64 = (oracleA.digest (digest_message handleA 1 2 3)).getD 8 0 % 64 :=
  makeIdentifier_version_variant_bits oracleA handleA 1 2 3 uuidA rfl

/-- C3: for a null handle, a pid above MAX_PID, or a micros offset above
999999, cpid_make_uuid returns InvalidArgument with the handle state
unchanged (so nothing was written), and the result does not depend on
the digest oracle at all (no digest computation is performed). -/
theorem makeIdentifier_rejects_invalid_arguments (H H2 : evp_oracle)
    (library_handle : Option cpid_struct) (pid secs micros : Nat)
    (hbad : library_handle = none ∨ pid > MAX_PID ∨ micros > MAX_MICROS_OFFSET) :
    cpid_make_uuid H library_handle pid secs micros =
      (library_handle, Except.error cpid_error.invalidArgument) ∧
    cpid_make_uuid H2 library_handle pid secs micros =
      cpid_make_uuid H library_handle pid secs micros := by
  match library_handle with
  | none => simp [cpid_make_uuid]
  | some h =>
    have hargs : pid > MAX_PID ∨ micros > MAX_MICROS_OFFSET := by
      rcases hbad with hbad | hbad
      · exact absurd hbad (by simp)
      · exact hbad
    simp [cpid_make_uuid, if_pos hargs]

theorem makeIdentifier_rejects_invalid_arguments_witness :
    (cpid_make_uuid oracleA none 42 5 6 =
      (none, Except.error cpid_error.invalidArgument) ∧
    cpid_make_uuid oracleShort none 42 5 6 = cpid_make_uuid oracleA none 42 5 6) ∧
    (cpid_make_uuid oracleA (some handleA) 100000 5 6 =
      (some handleA, Except.error cpid_error.invalidArgument) ∧
    cpid_make_uuid oracleShort (some handleA) 100000 5 6 =
      cpid_make_uuid oracleA (some handleA) 100000 5 6) :=
  ⟨makeIdentifier_rejects_invalid_arguments oracleA oracleShort none 42 5 6
      (Or.inl rfl),
   makeIdentifier_rejects_invalid_arguments oracleA oracleShort (some handleA)
      100000 5 6 (Or.inr (Or.inl (by decide)))⟩

/-- C4: cpid_make_uuid is deterministic and depends on nothing besides
the constant fields of the handle and the supplied arguments: two handles
agreeing on the constant fields (serial number, hardware UUID, kernel
task and launchd creation times) but with arbitrary pointer flags,
scratch buffers and stale per-call fields give bit-identical results for
the same oracle and argument triple. -/
theorem makeIdentifier_deterministic (H : evp_oracle)
    (sn hu : Fin 16 → Nat) (kt ld pct1 pct2 : process_creation_time_t)
    (pid1 pid2 : Nat) (buf1 buf2 : List Nat) (dc1 dc2 sh1 sh2 : Bool)
    (pid secs micros : Nat) :
    (cpid_make_uuid H
      (some { digest_context := dc1, sha256 := sh1
              digest_destination_buffer := buf1
              digest_input_content :=
                { serial_number := sn, hardware_uuid := hu
                  kernel_task_creation_time := kt
                  launchd_creation_time := ld
                  process_creation_time := pct1, pid := pid1 } })
      pid secs micros).2 =
    (cpid_make_uuid H
      (some { digest_context := dc2, sha256 := sh2
              digest_destination_buffer := buf2
              digest_input_content :=
                { serial_number := sn, hardware_uuid := hu
                  kernel_task_creation_time := kt
                  launchd_creation_time := ld
                  process_creation_time := pct2, pid := pid2 } })
      pid secs micros).2 := by
  by_cases hargs : pid > MAX_PID ∨ micros > MAX_MICROS_OFFSET
  · simp [cpid_make_uuid, if_pos hargs]
  cases hI : H.initOk
  · simp [cpid_make_uuid, if_neg hargs, hI]
  cases hU : H.updateOk
  · simp [cpid_make_uuid, if_neg hargs, hI, hU]
  cases hF : H.finalOk
  · simp [cpid_make_uuid, if_neg hargs, hI, hU, hF]
  rw [cpid_make_uuid_valid_run H _ pid secs micros hargs hI hU hF,
      cpid_make_uuid_valid_run H _ pid secs micros hargs hI hU hF]
  simp [digest_message]

/-- C5: the serialized byte record fed to the hash has size exactly 88
bytes for every record value, with no padding: the 16-byte serial
number, the 16-byte hardware UUID, the three 16-byte creation times
(8-byte seconds then 8-byte microseconds each) and the 8-byte pid, in
that order. -/
theorem digest_input_record_layout (c : digest_input_content_t) :
    (digest_input_bytes c).length = MACOS_EXPECTED_DIGEST_INPUT_CONTENT_SIZE ∧
    MACOS_EXPECTED_DIGEST_INPUT_CONTENT_SIZE = 88 ∧
    digest_input_bytes c =
      List.ofFn c.serial_number ++ List.ofFn c.hardware_uuid ++
      (u64le c.kernel_task_creation_time.unix_epoch_seconds ++
        u64le c.kernel_task_creation_time.micros_offset) ++
      (u64le c.launchd_creation_time.unix_epoch_seconds ++
        u64le c.launchd_creation_time.micros_offset) ++
      (u64le c.process_creation_time.unix_epoch_seconds ++
        u64le c.process_creation_time.micros_offset) ++
      u64le c.pid ∧
    (List.ofFn c.serial_number).length = 16 ∧
    (List.ofFn c.hardware_uuid).length = 16 ∧
    ∀ t : process_creation_time_t,
      (u64le t.unix_epoch_seconds).length = 8 ∧ (u64le t.micros_offset).length = 8 := by
  refine ⟨?_, rfl, rfl, by simp, by simp, fun t => ⟨rfl, rfl⟩⟩
  simp [digest_input_bytes, process_creation_time_bytes, u64le,
    MACOS_EXPECTED_DIGEST_INPUT_CONTENT_SIZE]

/-- C8: every cpid_make_uuid call leaves the constant handle fields
(serial number, hardware UUID, kernel task and launchd creation times)
and its OpenSSL pointers exactly as initialization populated them; only
the per-call record fields and the scratch buffer are written. -/
theorem makeIdentifier_preserves_constant_fields (H : evp_oracle)
    (h : cpid_struct) (pid secs micros : Nat) :
    ((cpid_make_uuid H (some h) pid secs micros).1.map fun x =>
        (x.digest_input_content.serial_number,
         x.digest_input_content.hardware_uuid,
         x.digest_input_content.kernel_task_creation_time,
         x.digest_input_content.launchd_creation_time,
         x.digest_context, x.sha256)) =
      some (h.digest_input_content.serial_number,
        h.digest_input_content.hardware_uuid,
        h.digest_input_content.kernel_task_creation_time,
        h.digest_input_content.launchd_creation_time,
        h.digest_context, h.sha256) := by
  by_cases hargs : pid > MAX_PID ∨ micros > MAX_MICROS_OFFSET
  · simp [cpid_make_uuid, if_pos hargs]
  cases hI : H.initOk
  · simp [cpid_make_uuid, if_neg hargs, hI]
  cases hU : H.updateOk
  · simp [cpid_make_uuid, if_neg hargs, hI, hU]
  cases hF : H.finalOk
  · simp [cpid_make_uuid, if_neg hargs, hI, hU, hF]
  simp only [cpid_make_uuid]
  rw [if_neg hargs]
  simp only [hI, hU, hF, Bool.true_eq_false, if_false]
  split <;> simp

/-- Helper: the shape of every successful cpid_make_uuid result: the
digest length was 32 and the output is the imprinted 16-byte prefix. -/
theorem cpid_make_uuid_ok_shape (H : evp_oracle) (h : cpid_struct)
    (pid secs micros : Nat) (u : List Nat)
    (hok : (cpid_make_uuid H (some h) pid secs micros).2 = Except.ok u) :
    (H.digest (digest_message h pid secs micros)).length = 32 ∧
    u = (((H.digest (digest_message h pid secs micros)).take 16).set 6
          (((H.digest (digest_message h pid secs micros)).getD 6 0 &&& 15) ||| 128)).set 8
        (((H.digest (digest_message h pid secs micros)).getD 8 0 &&& 63) ||| 128) := by
  by_cases hargs : pid > MAX_PID ∨ micros > MAX_MICROS_OFFSET
  · rw [show cpid_make_uuid H (some h) pid secs micros =
        (some h, Except.error cpid_error.invalidArgument) by
          simp [cpid_make_uuid, if_pos hargs]] at hok
    exact absurd hok (by simp)
  cases hI : H.initOk
  · simp [cpid_make_uuid, if_neg hargs, hI] at hok
  cases hU : H.updateOk
  · simp [cpid_make_uuid, if_neg hargs, hI, hU] at hok
  cases hF : H.finalOk
  · simp [cpid_make_uuid, if_neg hargs, hI, hU, hF] at hok
  rw [cpid_make_uuid_valid_run H h pid secs micros hargs hI hU hF] at hok
  by_cases hlen : (H.digest (digest_message h pid secs micros)).length = 32
  · rw [if_pos hlen] at hok
    simp only [Except.ok.injEq] at hok
    exact ⟨hlen, hok.symm⟩
  · rw [if_neg hlen] at hok
    exact absurd hok (by simp)

/-- Helper: after removing an address, looking it up gives nothing. -/
theorem lookup_remove_self (heap : cpid_heap) (a : Nat) :
    (heap.remove a).lookup a = none := by
  unfold cpid_heap.lookup cpid_heap.remove
  have h : (heap.live.filter (fun p => p.1 != a)).find? (fun p => p.1 == a) = none := by
    refine List.find?_eq_none.mpr ?_
    intro x hx
    have hne := (List.mem_filter.mp hx).2
    simp only [bne_iff_ne, ne_eq, decide_eq_true_eq] at hne
    simp [hne]
  simp [h]

/-- C7 counterexample: finalizing the same non-null handle twice is not
safe. After the first cpid_finalize on the only live handle, the second
call on the same address dereferences and frees dead memory: the model
reports the fault, refuting "calling it twice on the same handle never
double-frees and never faults". -/
theorem finalize_double_free_counterexample :
    (cpid_finalize (some 0) (cpid_finalize (some 0) heapCex).1).2 = false := by
  rfl

/-- C7 amended: cpid_finalize succeeds and changes nothing on a null
handle (idempotently), and succeeds on every live handle, including
partially initialized ones, releasing exactly the hash resources whose
pointers are present and freeing the handle; but the address is dead
afterwards, so it must not be finalized a second time. -/
theorem finalize_safe_on_null_and_live (heap : cpid_heap) (a : Nat)
    (s : cpid_struct) (hlive : heap.lookup a = some s) :
    cpid_finalize none heap = (heap, true) ∧
    (cpid_finalize (some a) heap).2 = true ∧
    (cpid_finalize (some a) heap).1.md_count =
      heap.md_count - (if s.sha256 then 1 else 0) ∧
    (cpid_finalize (some a) heap).1.ctx_count =
      heap.ctx_count - (if s.digest_context then 1 else 0) ∧
    (cpid_finalize (some a) heap).1.lookup a = none := by
  have hnone : (cpid_finalize (some a) heap).1.lookup a = none := by
    simp only [cpid_finalize, hlive]
    cases hdc : s.digest_context <;> cases hsh : s.sha256 <;>
      simpa [hdc, hsh] using lookup_remove_self _ a
  refine ⟨rfl, ?_, ?_, ?_, hnone⟩
  · simp [cpid_finalize, hlive]
  · simp only [cpid_finalize, hlive]
    cases hdc : s.digest_context <;> cases hsh : s.sha256 <;>
      simp [hdc, hsh, cpid_heap.remove]
  · simp only [cpid_finalize, hlive]
    cases hdc : s.digest_context <;> cases hsh : s.sha256 <;>
      simp [hdc, hsh, cpid_heap.remove]

theorem finalize_safe_on_null_and_live_witness :
    cpid_finalize none heapCex = (heapCex, true) ∧
    (cpid_finalize (some 0) heapCex).2 = true ∧
    (cpid_finalize (some 0) heapCex).1.md_count =
      heapCex.md_count - (if handleA.sha256 then 1 else 0) ∧
    (cpid_finalize (some 0) heapCex).1.ctx_count =
      heapCex.ctx_count - (if handleA.digest_context then 1 else 0) ∧
    (cpid_finalize (some 0) heapCex).1.lookup 0 = none :=
  finalize_safe_on_null_and_live heapCex 0 handleA rfl

/-- Helper: finalizing the handle just allocated at nextAddr releases
exactly the resources whose flags were set and restores the heap. -/
theorem finalize_fresh (heap : cpid_heap) (s : cpid_struct) (hwf : heap.wf) :
    cpid_finalize (some heap.nextAddr)
      { nextAddr := heap.nextAddr + 1
        live := (heap.nextAddr, s) :: heap.live
        md_count := heap.md_count + (if s.sha256 then 1 else 0)
        ctx_count := heap.ctx_count + (if s.digest_context then 1 else 0) } =
      ({ nextAddr := heap.nextAddr + 1
         live := heap.live
         md_count := heap.md_count
         ctx_count := heap.ctx_count }, true) := by
  have hlook : cpid_heap.lookup
      { nextAddr := heap.nextAddr + 1
        live := (heap.nextAddr, s) :: heap.live
        md_count := heap.md_count + (if s.sha256 then 1 else 0)
        ctx_count := heap.ctx_count + (if s.digest_context then 1 else 0) }
      heap.nextAddr = some s := by
    simp [cpid_heap.lookup]
  have hfilter : heap.live.filter (fun p => p.1 != heap.nextAddr) = heap.live :=
    List.filter_eq_self.mpr fun p hp => by
      simpa [bne_iff_ne] using Nat.ne_of_lt (hwf p hp)
  simp only [cpid_finalize, hlook]
  cases hdc : s.digest_context <;> cases hsh : s.sha256 <;>
    simp [hdc, hsh, cpid_heap.remove, hfilter]

/-- Helper: if the staged acquisition chain of cpid_init reports
success, every query succeeded and the resulting handle contents are
fully populated from the queries, with both resource flags set. -/
theorem cpid_init_steps_ok (env : cpid_env) (s : cpid_struct)
    (h : cpid_init_steps env zeroed_cpid_struct = (s, true)) :
    ∃ sn hu t0 t1,
      env.serial_number = some sn ∧ env.hardware_uuid = some hu ∧
      cpid_get_process_creation_time env KERNEL_TASK_PID = Except.ok t0 ∧
      cpid_get_process_creation_time env LAUNCHD_PID = Except.ok t1 ∧
      s = { digest_context := true
            sha256 := true
            digest_destination_buffer := List.replicate EVP_MAX_MD_SIZE 0
            digest_input_content :=
              { serial_number := sn
                hardware_uuid := hu
                kernel_task_creation_time := t0
                launchd_creation_time := t1
                process_creation_time := { unix_epoch_seconds := 0, micros_offset := 0 }
                pid := 0 } } := by
  unfold cpid_init_steps at h
  cases hmd : env.md_fetch_ok <;> rw [hmd] at h
  · simp at h
  cases hctx : env.ctx_new_ok <;> rw [hctx] at h
  · simp at h
  cases hsn : env.serial_number <;> rw [hsn] at h
  · simp at h
  case some sn =>
  cases hhw : env.hardware_uuid <;> rw [hhw] at h
  · simp at h
  case some hu =>
  cases ht0 : cpid_get_process_creation_time env KERNEL_TASK_PID <;> rw [ht0] at h
  · simp at h
  case ok t0 =>
  cases ht1 : cpid_get_process_creation_time env LAUNCHD_PID <;> rw [ht1] at h
  · simp at h
  case ok t1 =>
  refine ⟨sn, hu, t0, t1, rfl, rfl, rfl, rfl, ?_⟩
  simp [zeroed_cpid_struct] at h
  exact h.symm

/-- C6: whenever any step of cpid_init fails (allocation, hash fetch,
context creation, serial query, hardware UUID query, or either of the
PID 0 / PID 1 creation-time queries), every resource acquired up to that
point is released — the live handles and the EVP resource counts are
exactly the original ones — and no handle is returned; when a handle is
returned it is fully populated from the successful queries. -/
theorem initialization_releases_on_failure (env : cpid_env)
    (heap : cpid_heap) (hwf : heap.wf) :
    (∀ heap2, cpid_init env heap = (heap2, none) →
      heap2.live = heap.live ∧ heap2.md_count = heap.md_count ∧
      heap2.ctx_count = heap.ctx_count) ∧
    (∀ heap2 a, cpid_init env heap = (heap2, some a) →
      ∃ sn hu t0 t1,
        env.serial_number = some sn ∧ env.hardware_uuid = some hu ∧
        cpid_get_process_creation_time env KERNEL_TASK_PID = Except.ok t0 ∧
        cpid_get_process_creation_time env LAUNCHD_PID = Except.ok t1 ∧
        heap2.lookup a = some
          { digest_context := true
            sha256 := true
            digest_destination_buffer := List.replicate EVP_MAX_MD_SIZE 0
            digest_input_content :=
              { serial_number := sn
                hardware_uuid := hu
                kernel_task_creation_time := t0
                launchd_creation_time := t1
                process_creation_time := { unix_epoch_seconds := 0, micros_offset := 0 }
                pid := 0 } } ∧
        heap2.md_count = heap.md_count + 1 ∧
        heap2.ctx_count = heap.ctx_count + 1) := by
  cases hc : env.calloc_ok
  · have heq : cpid_init env heap = (heap, none) := by
      simp [cpid_init, hc]
    constructor
    · intro heap2 hinit
      rw [heq] at hinit
      injection hinit with hA hB
      rw [← hA]
      exact ⟨rfl, rfl, rfl⟩
    · intro heap2 a hinit
      rw [heq] at hinit
      injection hinit with hA hB
      exact absurd hB (by simp)
  · rcases hsteps : cpid_init_steps env zeroed_cpid_struct with ⟨s, ok⟩
    cases ok
    · have heq : cpid_init env heap =
          ({ nextAddr := heap.nextAddr + 1, live := heap.live,
             md_count := heap.md_count, ctx_count := heap.ctx_count }, none) := by
        have hfin := finalize_fresh heap s hwf
        simp [cpid_init, hc, hsteps, hfin]
      constructor
      · intro heap2 hinit
        rw [heq] at hinit
        injection hinit with hA hB
        rw [← hA]
        exact ⟨rfl, rfl, rfl⟩
      · intro heap2 a hinit
        rw [heq] at hinit
        injection hinit with hA hB
        exact absurd hB (by simp)
    · have heq : cpid_init env heap =
          ({ nextAddr := heap.nextAddr + 1
             live := (heap.nextAddr, s) :: heap.live
             md_count := heap.md_count + (if s.sha256 then 1 else 0)
             ctx_count := heap.ctx_count + (if s.digest_context then 1 else 0) },
           some heap.nextAddr) := by
        simp [cpid_init, hc, hsteps]
      constructor
      · intro heap2 hinit
        rw [heq] at hinit
        injection hinit with hA hB
        exact absurd hB (by simp)
      · intro heap2 a hinit
        rw [heq] at hinit
        injection hinit with hA hB
        injection hB with hB
        obtain ⟨sn, hu, t0, t1, h1, h2, h3, h4, hs⟩ := cpid_init_steps_ok env s hsteps
        refine ⟨sn, hu, t0, t1, h1, h2, h3, h4, ?_, ?_, ?_⟩
        · rw [← hA, ← hB, hs]
          simp [cpid_heap.lookup]
        · rw [← hA, hs]
          simp
        · rw [← hA, hs]
          simp

theorem lower_hex_of_digit : ∀ n < 16,
    isLowerHexChar (c_tolower (hex_digit_upper n)) = true := by decide

theorem c_tolower_hyphen : c_tolower '-' = '-' := by decide

/-- Helper: a default lookup in a list of bytes below 256 stays below
256. -/
theorem getD_lt_256 (u : List Nat) (hu : ∀ b ∈ u, b < 256) (i : Nat) :
    u.getD i 0 < 256 := by
  simp only [List.getD_eq_getElem?_getD]
  cases h : u[i]? with
  | none => simp
  | some b =>
    have hb : b ∈ u := by
      have := List.getElem?_eq_some.mp h
      obtain ⟨hlt, hget⟩ := this
      exact hget ▸ List.getElem_mem hlt
    simpa using hu b hb

/-- Helper: both lowercase hex characters of a byte below 256 are in the
output alphabet. -/
theorem byte_hex_lower_ok (b : Nat) (hb : b < 256) :
    ∀ c ∈ (byte_hex_upper b).map c_tolower, isLowerHexChar c = true := by
  intro c hc
  simp only [byte_hex_upper, List.map_cons, List.map_nil, List.mem_cons,
    List.not_mem_nil, or_false] at hc
  rcases hc with hc | hc <;> subst hc
  · exact lower_hex_of_digit (b / 16) (by omega)
  · exact lower_hex_of_digit (b % 16) (by omega)

/-- Helper: the optional-lookup form of getD_lt_256. -/
theorem getElem?_getD_lt_256 (u : List Nat) (hu : ∀ b ∈ u, b < 256)
    (i : Nat) : u[i]?.getD 0 < 256 := by
  simpa using getD_lt_256 u hu i

/-- Helper: both lowercase hex characters of a byte below 256 pass the
alphabet check, as a Boolean. -/
theorem all_lower_hex_byte (b : Nat) (hb : b < 256) :
    ((byte_hex_upper b).map c_tolower).all isLowerHexChar = true := by
  rw [List.all_eq_true]
  exact byte_hex_lower_ok b hb

/-- Helper: the lowercased rendering of any 16 bytes below 256 matches
the hyphenated 8-4-4-4-12 lowercase hexadecimal grammar. -/
theorem unparse_grammar (u : List Nat) (hu : ∀ b ∈ u, b < 256) :
    ∃ g1 g2 g3 g4 g5 : List Char,
      (uuid_unparse u).map c_tolower =
        g1 ++ '-' :: (g2 ++ '-' :: (g3 ++ '-' :: (g4 ++ '-' :: g5))) ∧
      g1.length = 8 ∧ g2.length = 4 ∧ g3.length = 4 ∧ g4.length = 4 ∧
      g5.length = 12 ∧
      (g1 ++ g2 ++ g3 ++ g4 ++ g5).all isLowerHexChar = true := by
  refine ⟨(byte_hex_upper (u.getD 0 0) ++ byte_hex_upper (u.getD 1 0) ++
      byte_hex_upper (u.getD 2 0) ++ byte_hex_upper (u.getD 3 0)).map c_tolower,
    (byte_hex_upper (u.getD 4 0) ++ byte_hex_upper (u.getD 5 0)).map c_tolower,
    (byte_hex_upper (u.getD 6 0) ++ byte_hex_upper (u.getD 7 0)).map c_tolower,
    (byte_hex_upper (u.getD 8 0) ++ byte_hex_upper (u.getD 9 0)).map c_tolower,
    (byte_hex_upper (u.getD 10 0) ++ byte_hex_upper (u.getD 11 0) ++
      byte_hex_upper (u.getD 12 0) ++ byte_hex_upper (u.getD 13 0) ++
      byte_hex_upper (u.getD 14 0) ++ byte_hex_upper (u.getD 15 0)).map c_tolower,
    ?_, ?_, ?_, ?_, ?_, ?_, ?_⟩
  · simp [uuid_unparse, c_tolower_hyphen]
  · simp [byte_hex_upper]
  · simp [byte_hex_upper]
  · simp [byte_hex_upper]
  · simp [byte_hex_upper]
  · simp [byte_hex_upper]
  · simp [List.map_append, List.all_append, all_lower_hex_byte,
      getD_lt_256 u hu]
    refine ⟨?_, ?_, ?_, ?_, ?_, ?_, ?_, ?_, ?_, ?_, ?_, ?_, ?_, ?_, ?_, ?_⟩ <;>
      · intro x hx
        exact byte_hex_lower_ok _ (getElem?_getD_lt_256 u hu _) _
          (List.mem_map_of_mem _ hx)

/-- Helper: every byte of a successful cpid_make_uuid output is below
256 when the digest oracle produces bytes. -/
theorem make_uuid_output_bytes_lt (H : evp_oracle) (h : cpid_struct)
    (pid secs micros : Nat) (u : List Nat)
    (hok : (cpid_make_uuid H (some h) pid secs micros).2 = Except.ok u)
    (hdig : ∀ b ∈ H.digest (digest_message h pid secs micros), b < 256) :
    ∀ b ∈ u, b < 256 := by
  obtain ⟨hlen, hu⟩ := cpid_make_uuid_ok_shape H h pid secs micros u hok
  subst hu
  intro b hb
  rcases List.mem_or_eq_of_mem_set hb with hb | hb
  · rcases List.mem_or_eq_of_mem_set hb with hb | hb
    · exact hdig b (List.mem_of_mem_take hb)
    · subst hb
      rw [version_byte_eq]
      have hm : (H.digest (digest_message h pid secs micros)).getD 6 0 % 16 < 16 :=
        Nat.mod_lt _ (by omega)
      omega
  · subst hb
    rw [variant_byte_eq]
    have hm : (H.digest (digest_message h pid secs micros)).getD 8 0 % 64 < 64 :=
      Nat.mod_lt _ (by omega)
    omega

/-- C9: every successful cpid_get_uuid_string output is the 16
identifier bytes in the canonical hyphenated 8-4-4-4-12 hexadecimal
form with every hexadecimal digit lowercase, and every failure from
cpid_get_uuid is propagated unchanged with no string produced. -/
theorem getIdentifierString_lowercase_grammar (env : cpid_env)
    (H : evp_oracle) (h : cpid_struct) (pid : Nat)
    (hdig : ∀ m : List Nat, ∀ b ∈ H.digest m, b < 256) :
    (∀ s, (cpid_get_uuid_string env H (some h) pid).2 = Except.ok s →
      ∃ g1 g2 g3 g4 g5 : List Char,
        s = g1 ++ '-' :: (g2 ++ '-' :: (g3 ++ '-' :: (g4 ++ '-' :: g5))) ∧
        g1.length = 8 ∧ g2.length = 4 ∧ g3.length = 4 ∧ g4.length = 4 ∧
        g5.length = 12 ∧
        (g1 ++ g2 ++ g3 ++ g4 ++ g5).all isLowerHexChar = true) ∧
    (∀ e, (cpid_get_uuid env H (some h) pid).2 = Except.error e →
      (cpid_get_uuid_string env H (some h) pid).2 = Except.error e) := by
  constructor
  · intro s hs
    rcases hug : cpid_get_uuid env H (some h) pid with ⟨hs2, res⟩
    cases res with
    | error e =>
      rw [show cpid_get_uuid_string env H (some h) pid = (hs2, Except.error e) by
        simp [cpid_get_uuid_string, hug]] at hs
      simp at hs
    | ok uu =>
      rw [show cpid_get_uuid_string env H (some h) pid =
          (hs2, Except.ok ((uuid_unparse uu).map c_tolower)) by
        simp [cpid_get_uuid_string, hug]] at hs
      simp only [Except.ok.injEq] at hs
      have huu : ∀ b ∈ uu, b < 256 := by
        cases hct : cpid_get_process_creation_time env pid with
        | error e2 =>
          rw [show cpid_get_uuid env H (some h) pid =
              (some h, Except.error cpid_error.notFound) by
            simp [cpid_get_uuid, hct]] at hug
          simp at hug
        | ok t =>
          rw [show cpid_get_uuid env H (some h) pid =
              cpid_make_uuid H (some h) pid t.unix_epoch_seconds t.micros_offset by
            simp [cpid_get_uuid, hct]] at hug
          have hmk : (cpid_make_uuid H (some h) pid t.unix_epoch_seconds
              t.micros_offset).2 = Except.ok uu := by
            rw [hug]
          exact make_uuid_output_bytes_lt H h pid _ _ uu hmk (hdig _)
      obtain ⟨g1, g2, g3, g4, g5, hgeq, hl1, hl2, hl3, hl4, hl5, hall⟩ :=
        unparse_grammar uu huu
      exact ⟨g1, g2, g3, g4, g5, hs ▸ hgeq, hl1, hl2, hl3, hl4, hl5, hall⟩
  · intro e he
    rcases hug : cpid_get_uuid env H (some h) pid with ⟨hs2, res⟩
    rw [hug] at he
    cases res with
    | error e2 =>
      simp only [Except.error.injEq] at he
      subst he
      simp [cpid_get_uuid_string, hug]
    | ok uu =>
      simp at he

/-- C10: for every pid above MAX_PID, the process-time lookup itself
rejects the range before any process-table query (the result does not
depend on the sysctl environment), so cpid_get_uuid fails without any
digest computation (the result does not depend on the digest oracle
either), and cpid_get_uuid_string fails the same way. -/
theorem getIdentifier_out_of_range_pid (env env2 : cpid_env)
    (H H2 : evp_oracle) (h : cpid_struct) (pid : Nat) (hpid : pid > MAX_PID) :
    cpid_get_process_creation_time env pid = Except.error () ∧
    cpid_get_uuid env H (some h) pid =
      (some h, Except.error cpid_error.notFound) ∧
    cpid_get_uuid env2 H2 (some h) pid = cpid_get_uuid env H (some h) pid ∧
    (cpid_get_uuid_string env H (some h) pid).2 =
      Except.error cpid_error.notFound := by
  have h1 : ∀ e : cpid_env,
      cpid_get_process_creation_time e pid = Except.error () := fun e => by
    simp [cpid_get_process_creation_time, hpid]
  have h2 : ∀ (e : cpid_env) (HH : evp_oracle),
      cpid_get_uuid e HH (some h) pid =
        (some h, Except.error cpid_error.notFound) := fun e HH => by
    simp [cpid_get_uuid, h1 e]
  refine ⟨h1 env, h2 env H, by rw [h2, h2], ?_⟩
  simp [cpid_get_uuid_string, h2 env H]

theorem initialization_releases_on_failure_witness :
    ((∀ heap2, cpid_init envFailSerial heapEmpty = (heap2, none) →
      heap2.live = heapEmpty.live ∧ heap2.md_count = heapEmpty.md_count ∧
      heap2.ctx_count = heapEmpty.ctx_count) ∧
    (∀ heap2 a, cpid_init envFailSerial heapEmpty = (heap2, some a) →
      ∃ sn hu t0 t1,
        envFailSerial.serial_number = some sn ∧
        envFailSerial.hardware_uuid = some hu ∧
        cpid_get_process_creation_time envFailSerial KERNEL_TASK_PID = Except.ok t0 ∧
        cpid_get_process_creation_time envFailSerial LAUNCHD_PID = Except.ok t1 ∧
        heap2.lookup a = some
          { digest_context := true
            sha256 := true
            digest_destination_buffer := List.replicate EVP_MAX_MD_SIZE 0
            digest_input_content :=
              { serial_number := sn
                hardware_uuid := hu
                kernel_task_creation_time := t0
                launchd_creation_time := t1
                process_creation_time := { unix_epoch_seconds := 0, micros_offset := 0 }
                pid := 0 } } ∧
        heap2.md_count = heapEmpty.md_count + 1 ∧
        heap2.ctx_count = heapEmpty.ctx_count + 1)) :=
  initialization_releases_on_failure envFailSerial heapEmpty
    (fun p hp => absurd hp (List.not_mem_nil p))

theorem getIdentifierString_lowercase_grammar_witness :
    ∃ g1 g2 g3 g4 g5 : List Char,
      sA = g1 ++ '-' :: (g2 ++ '-' :: (g3 ++ '-' :: (g4 ++ '-' :: g5))) ∧
      g1.length = 8 ∧ g2.length = 4 ∧ g3.length = 4 ∧ g4.length = 4 ∧
      g5.length = 12 ∧
      (g1 ++ g2 ++ g3 ++ g4 ++ g5).all isLowerHexChar = true :=
  (getIdentifierString_lowercase_grammar envA oracleA handleA 4
    (fun m b hb => by
      have hb7 := List.eq_of_mem_replicate hb
      omega)).1 sA rfl

theorem getIdentifier_out_of_range_pid_witness :
    cpid_get_process_creation_time envA 100000 = Except.error () ∧
    cpid_get_uuid envA oracleA (some handleA) 100000 =
      (some handleA, Except.error cpid_error.notFound) ∧
    cpid_get_uuid envFailSerial oracleShort (some handleA) 100000 =
      cpid_get_uuid envA oracleA (some handleA) 100000 ∧
    (cpid_get_uuid_string envA oracleA (some handleA) 100000).2 =
      Except.error cpid_error.notFound :=
  getIdentifier_out_of_range_pid envA envFailSerial oracleA oracleShort handleA
    100000 (by decide)
